import Mathlib

/-!
Verification of the storage-bucket provisioning core of the threadwork
repository: the server-side `create_project_bucket` stored procedure
(src/supabase/migrations/20240220000001_create_project_bucket_function.sql)
and the client-side archive builder
(src/frontend/src/lib/storage-utils.ts).

The SQL procedure is embedded as a pure state-transition function over an
explicit storage-backend state (buckets plus row-level policies), with the
`random()` draw passed in as an explicit byte string and SHA-256 implemented
concretely so that the shape of the derived bucket name can be proved. Its
four policy DDL statements are built, as in the source, by `format` with
`%I` — modelled through `quote_ident` — spliced inside the templates' own
double-quoted policy-name literals; executing such a statement first
requires that literal to lex as a single quoted identifier, which fails
with a syntax error whenever `quote_ident` has double-quoted the
substituted name, as it does for every hyphenated derived name.
The TypeScript routines are embedded as pure functions over an environment
record describing the outcomes of the external calls (RPC, zip
serialization, storage upload), returning the computed value together with
the list of observable side effects.
-/

namespace Threadwork

/-! ## SHA-256 over byte lists (pgcrypto's `sha256`), executable -/

/-- The modulus for 32-bit words. -/
def w32 : Nat := 4294967296

/-- Rotate a 32-bit word right by `n` bits. -/
def rotr (n x : Nat) : Nat := ((x >>> n) ||| (x <<< (32 - n))) % w32

/-- Bitwise complement of a 32-bit word. -/
def compl32 (x : Nat) : Nat := x ^^^ (w32 - 1)

/-- The SHA-256 choice function. -/
def ch (x y z : Nat) : Nat := (x &&& y) ^^^ (compl32 x &&& z)

/-- The SHA-256 majority function. -/
def maj (x y z : Nat) : Nat := (x &&& y) ^^^ (x &&& z) ^^^ (y &&& z)

/-- The SHA-256 big sigma-0 function. -/
def bigSigma0 (x : Nat) : Nat := rotr 2 x ^^^ rotr 13 x ^^^ rotr 22 x

/-- The SHA-256 big sigma-1 function. -/
def bigSigma1 (x : Nat) : Nat := rotr 6 x ^^^ rotr 11 x ^^^ rotr 25 x

/-- The SHA-256 small sigma-0 function. -/
def smallSigma0 (x : Nat) : Nat := rotr 7 x ^^^ rotr 18 x ^^^ (x >>> 3)

/-- The SHA-256 small sigma-1 function. -/
def smallSigma1 (x : Nat) : Nat := rotr 17 x ^^^ rotr 19 x ^^^ (x >>> 10)

/-- The 64 SHA-256 round constants of FIPS 180-4, in decimal. -/
def K : Array Nat := #[
  1116352408, 1899447441, 3049323471, 3921009573,
  961987163, 1508970993, 2453635748, 2870763221,
  3624381080, 310598401, 607225278, 1426881987,
  1925078388, 2162078206, 2614888103, 3248222580,
  3835390401, 4022224774, 264347078, 604807628,
  770255983, 1249150122, 1555081692, 1996064986,
  2554220882, 2821834349, 2952996808, 3210313671,
  3336571891, 3584528711, 113926993, 338241895,
  666307205, 773529912, 1294757372, 1396182291,
  1695183700, 1986661051, 2177026350, 2456956037,
  2730485921, 2820302411, 3259730800, 3345764771,
  3516065817, 3600352804, 4094571909, 275423344,
  430227734, 506948616, 659060556, 883997877,
  958139571, 1322822218, 1537002063, 1747873779,
  1955562222, 2024104815, 2227730452, 2361852424,
  2428436474, 2756734187, 3204031479, 3329325298]

/-- The eight 32-bit words of a SHA-256 chaining state. -/
structure Hash8 where
  h0 : Nat
  h1 : Nat
  h2 : Nat
  h3 : Nat
  h4 : Nat
  h5 : Nat
  h6 : Nat
  h7 : Nat
deriving Repr, DecidableEq

/-- The SHA-256 initial chaining state of FIPS 180-4, in decimal. -/
def initH : Hash8 :=
  ⟨1779033703, 3144134277, 1013904242, 2773480762,
   1359893119, 2600822924, 528734635, 1541459225⟩

/-- Group a byte list into big-endian 32-bit words. -/
def bytesToWords : List Nat → List Nat
  | b0 :: b1 :: b2 :: b3 :: rest =>
      (b0 * 16777216 + b1 * 65536 + b2 * 256 + b3) :: bytesToWords rest
  | _ => []

/-- Extend a message-schedule array by `n` further words. -/
def scheduleLoop (w : Array Nat) : Nat → Array Nat
  | 0 => w
  | n + 1 =>
      let i := w.size
      let nw := (smallSigma1 (w.getD (i - 2) 0) + w.getD (i - 7) 0 +
                 smallSigma0 (w.getD (i - 15) 0) + w.getD (i - 16) 0) % w32
      scheduleLoop (w.push nw) n

/-- The 64-word message schedule of one 16-word block. -/
def schedule (ws : List Nat) : Array Nat := scheduleLoop ws.toArray 48

/-- One SHA-256 compression round. -/
def sha256Round (w : Array Nat) (st : Hash8) (i : Nat) : Hash8 :=
  let t1 := (st.h7 + bigSigma1 st.h4 + ch st.h4 st.h5 st.h6 +
             K.getD i 0 + w.getD i 0) % w32
  let t2 := (bigSigma0 st.h0 + maj st.h0 st.h1 st.h2) % w32
  ⟨(t1 + t2) % w32, st.h0, st.h1, st.h2, (st.h3 + t1) % w32, st.h4, st.h5, st.h6⟩

/-- Compress one 64-byte block into the chaining state. -/
def compress (h : Hash8) (block : List Nat) : Hash8 :=
  let w := schedule (bytesToWords block)
  let st := (List.range 64).foldl (sha256Round w) h
  ⟨(h.h0 + st.h0) % w32, (h.h1 + st.h1) % w32, (h.h2 + st.h2) % w32,
   (h.h3 + st.h3) % w32, (h.h4 + st.h4) % w32, (h.h5 + st.h5) % w32,
   (h.h6 + st.h6) % w32, (h.h7 + st.h7) % w32⟩

/-- SHA-256 padding: append 0x80, zeros to 56 mod 64, and the 64-bit
big-endian bit length. -/
def padMessage (msg : List Nat) : List Nat :=
  let len := msg.length
  let bitLen := len * 8
  let zeros := (120 - (len + 1) % 64) % 64
  msg ++ [128] ++ List.replicate zeros 0 ++
    (List.range 8).map (fun i => (bitLen >>> (8 * (7 - i))) % 256)

/-- Split a byte list into blocks of 64, with structural fuel so the kernel
can evaluate it; `chunks64` supplies enough fuel for the whole list. -/
def chunksAux : Nat → List Nat → List (List Nat)
  | _, [] => []
  | 0, _ => []
  | fuel + 1, l => l.take 64 :: chunksAux fuel (l.drop 64)

/-- Split a byte list into blocks of 64. -/
def chunks64 (l : List Nat) : List (List Nat) := chunksAux l.length l

/-- Emit a 32-bit word as four big-endian bytes. -/
def wordBytes (x : Nat) : List Nat :=
  [(x >>> 24) % 256, (x >>> 16) % 256, (x >>> 8) % 256, x % 256]

/-- The 32 digest bytes of a chaining state. -/
def digestBytes (h : Hash8) : List Nat :=
  wordBytes h.h0 ++ wordBytes h.h1 ++ wordBytes h.h2 ++ wordBytes h.h3 ++
  wordBytes h.h4 ++ wordBytes h.h5 ++ wordBytes h.h6 ++ wordBytes h.h7

/-- SHA-256 of a byte list, as 32 digest bytes. -/
def sha256 (msg : List Nat) : List Nat :=
  digestBytes ((chunks64 (padMessage msg)).foldl compress initH)

/-! ## Hex encoding (the `encode(..., 'hex')` step) -/

/-- The lower-case hex digit for a nibble. -/
def hexChar (n : Nat) : Char :=
  "0123456789abcdef".toList.getD n '0'

/-- The two hex digits of a byte. -/
def hexByte (b : Nat) : List Char :=
  [hexChar (b / 16 % 16), hexChar (b % 16)]

/-- Lower-case hex encoding of a byte list, as a string. -/
def hexEncode (bs : List Nat) : String :=
  ⟨(bs.map hexByte).flatten⟩

/-- Hex digest of the SHA-256 of a byte list: the value of
`encode(sha256(x), 'hex')`. -/
def sha256hex (msg : List Nat) : String := hexEncode (sha256 msg)

/-! ## Storage backend state: buckets and row-level policies

The backend objects that `create_project_bucket` mutates: rows of
`storage.buckets` and the policies installed on `storage.objects`.
The procedure builds its four policy DDL statements with `format`,
substituting the bucket name via `%I` — that is, via `quote_ident` —
inside policy-name literals that the templates already double-quote, and
into a single-quoted condition literal (`bucket_id = '%I'`). Executing a
statement therefore first requires it to parse: a `%I` substitution that
`quote_ident` has double-quoted produces nested quotes inside the
policy-name literal and the statement raises a syntax error. The
non-dynamic bucket insert (`on conflict (id) do nothing`) never fails;
`create policy` additionally fails on a duplicate policy name. -/

/-- The command a policy applies to: `for select` or `for insert`. -/
inductive PolicyCmd where
  | select
  | insert
deriving Repr, DecidableEq

/-- The role a policy is granted `to`: `public` (every caller, the
unauthenticated included) or `authenticated`. -/
inductive PolicyRole where
  | rolePublic
  | roleAuthenticated
deriving Repr, DecidableEq

/-- A row-level policy on `storage.objects`. Every policy this procedure
installs has a condition of the shape `bucket_id = <constant>`; the
constant is recorded in `bucketCond`. -/
structure Policy where
  name : String
  cmd : PolicyCmd
  role : PolicyRole
  bucketCond : String
deriving Repr, DecidableEq

/-- A row of `storage.buckets`. -/
structure Bucket where
  id : String
  name : String
  isPublic : Bool
deriving Repr, DecidableEq

/-- The backend state touched by the provisioner. -/
structure StorageState where
  buckets : List Bucket
  policies : List Policy
deriving Repr, DecidableEq

/-- The empty backend state. -/
def emptyStorage : StorageState := ⟨[], []⟩

/-- Whether PostgreSQL `quote_ident` must quote a name: it is left bare
only when it is a valid unquoted identifier — first character a
lower-case letter or underscore, the rest lower-case letters, digits or
underscores. (Reserved keywords would also be quoted; they cannot occur
among the hyphenated names this procedure derives, so the keyword list is
not modelled.) -/
def isIdentStart (c : Char) : Bool :=
  decide (97 ≤ c.toNat ∧ c.toNat ≤ 122) || c == '_'

/-- Whether a character may continue an unquoted identifier. -/
def isIdentCont (c : Char) : Bool :=
  isIdentStart c || decide (48 ≤ c.toNat ∧ c.toNat ≤ 57)

/-- Whether `quote_ident` double-quotes the name. -/
def needsQuoting (s : String) : Bool :=
  match s.data with
  | [] => true
  | c :: cs => !(isIdentStart c && cs.all isIdentCont)

/-- Double every double quote, as `quote_ident` does inside the quotes
it adds. -/
def escapeQuotesList : List Char → List Char
  | [] => []
  | c :: cs => (if c == '"' then ['"', '"'] else [c]) ++ escapeQuotesList cs

/-- The body `quote_ident` places between its added double quotes. -/
def escapeQuotes (s : String) : String := ⟨escapeQuotesList s.data⟩

/-- PostgreSQL `quote_ident`, which is what `format`'s `%I` applies to
its argument before splicing it into the statement text. -/
def quoteIdent (s : String) : String :=
  if needsQuoting s then "\"" ++ escapeQuotes s ++ "\"" else s

/-- The download-policy-name template text preceding the `%I`, from
`format('... "Public Downloads for %I" ...')`. -/
def downloadTemplate : String := "Public Downloads for "

/-- The upload-policy-name template text preceding the `%I`, from
`format('... "Authenticated Uploads for %I" ...')`. -/
def uploadTemplate : String := "Authenticated Uploads for "

/-- The characters `format` leaves between the template's own double
quotes: the template text followed by the `%I` substitution, i.e.
`quote_ident` of the bucket name. -/
def policyNameRegion (templateText n : String) : String :=
  templateText ++ quoteIdent n

/-- Lex the body of a double-quoted SQL identifier: consume characters up
to the first lone `"` (a doubled `""` is an escaped quote), returning the
body and the input after the closing quote, or none when unterminated. -/
def lexQuotedBody : List Char → Option (List Char × List Char)
  | [] => none
  | [c] => if c == '"' then some ([], []) else none
  | c :: d :: rest =>
    if c == '"' then
      if d == '"' then
        (lexQuotedBody rest).map (fun br => ('"' :: br.1, br.2))
      else some ([], d :: rest)
    else
      (lexQuotedBody (d :: rest)).map (fun br => (c :: br.1, br.2))

/-- Whether the double-quoted policy-name literal of a format-built DDL
statement parses as a single identifier: the lexer, started after the
template's opening quote, must consume the whole region and stop exactly
at the template's closing quote. When `%I` has double-quoted the
substituted name, the lexer instead stops at the name's own opening
quote, text is left over before the statement's closing quote, and the
statement fails to parse. -/
def regionIsSingleIdent (region : String) : Bool :=
  match lexQuotedBody (region.data ++ ['"']) with
  | some (_, []) => true
  | _ => false

/-- The effect of `insert into storage.buckets (id, name, public)
values (n, n, true) on conflict (id) do nothing`. -/
def insertBucket (s : StorageState) (n : String) : StorageState :=
  if s.buckets.any (fun b => b.id == n) then s
  else { s with buckets := s.buckets ++ [⟨n, n, true⟩] }

/-- Executing the format-built statement `drop policy if exists
"<template>%I" on storage.objects`: the statement must first parse —
which requires the quoted name region to lex as one identifier — and
then drops any policy with that name; a malformed region raises a
syntax error. -/
def executeDropPolicyIfExists (s : StorageState) (templateText n : String) :
    Except String StorageState :=
  let region := policyNameRegion templateText n
  if regionIsSingleIdent region then
    Except.ok { s with
      policies := s.policies.filter (fun p => p.name != region) }
  else
    Except.error ("syntax error at or near " ++ region)

/-- Executing a format-built `create policy "<template>%I" on
storage.objects for <cmd> to <role> ... ( bucket_id = '%I' )` statement:
the same parse requirement on the name region, then the backend's
duplicate-name check, then the policy is installed. Its condition
compares `bucket_id` with the string literal the inner `'%I'` produces —
`quote_ident` of the bucket name, including the double quotes it adds
whenever the name needs quoting — recorded in `bucketCond`. -/
def executeCreatePolicy (s : StorageState) (templateText n : String)
    (cmd : PolicyCmd) (role : PolicyRole) : Except String StorageState :=
  let region := policyNameRegion templateText n
  if regionIsSingleIdent region then
    if s.policies.any (fun q => q.name == region) then
      Except.error ("policy " ++ region ++ " already exists")
    else
      Except.ok { s with policies :=
        s.policies ++ [⟨region, cmd, role, quoteIdent n⟩] }
  else
    Except.error ("syntax error at or near " ++ region)

/-- The bucket name derived in the procedure's first statement:
`'project-' || project_id || '-' || encode(sha256(random()::text::bytea), 'hex')`.
The bytes of the drawn random value are the `rnd` argument. -/
def newBucketName (project_id : String) (rnd : List Nat) : String :=
  "project-" ++ project_id ++ "-" ++ sha256hex rnd

/-- The `create_project_bucket(project_id text)` stored procedure. The
`random()` draw is passed in as the bytes `rnd` of its text form. The
statements run in order; an unhandled backend error — here, the syntax
error any of the four format-built DDL statements raises when `%I` has
double-quoted the hyphenated name inside the quoted policy-name literal —
aborts the whole call and rolls its writes back, so an error result
carries no state. -/
def create_project_bucket (project_id : String) (rnd : List Nat)
    (s : StorageState) : Except String (String × StorageState) :=
  let new_bucket_name := newBucketName project_id rnd
  let s1 := insertBucket s new_bucket_name
  match executeDropPolicyIfExists s1 downloadTemplate new_bucket_name with
  | Except.error e => Except.error e
  | Except.ok s2 =>
    match executeDropPolicyIfExists s2 uploadTemplate new_bucket_name with
    | Except.error e => Except.error e
    | Except.ok s3 =>
      match executeCreatePolicy s3 downloadTemplate new_bucket_name
          PolicyCmd.select PolicyRole.rolePublic with
      | Except.error e => Except.error e
      | Except.ok s4 =>
        match executeCreatePolicy s4 uploadTemplate new_bucket_name
            PolicyCmd.insert PolicyRole.roleAuthenticated with
        | Except.error e => Except.error e
        | Except.ok s5 => Except.ok (new_bucket_name, s5)

/-! ## Policy semantics -/

/-- A caller of the storage API; the only attribute the two policies
consult is whether the caller is authenticated. -/
structure Caller where
  authenticated : Bool
deriving Repr, DecidableEq

/-- An object row in `storage.objects`. -/
structure StorageObject where
  bucket_id : String
  objName : String
deriving Repr, DecidableEq

/-- The storage action an access check is about. -/
inductive Action where
  | read
  | write
deriving Repr, DecidableEq

/-- The command governing an action: reads are `select`, writes `insert`. -/
def actionCmd : Action → PolicyCmd
  | Action.read => PolicyCmd.select
  | Action.write => PolicyCmd.insert

/-- Whether a policy's `to <role>` clause covers a caller: `public`
covers every caller, `authenticated` only authenticated ones. -/
def roleCovers : PolicyRole → Caller → Bool
  | PolicyRole.rolePublic, _ => true
  | PolicyRole.roleAuthenticated, c => c.authenticated

/-- Whether a single policy grants a caller an action on an object. -/
def policyAllows (p : Policy) (c : Caller) (a : Action) (o : StorageObject) : Bool :=
  (p.cmd == actionCmd a) && roleCovers p.role c && (o.bucket_id == p.bucketCond)

/-- The policies of a state that are read policies scoped to bucket `b`. -/
def readPoliciesFor (s : StorageState) (b : String) : List Policy :=
  s.policies.filter (fun p => (p.cmd == PolicyCmd.select) && (p.bucketCond == b))

/-- The policies of a state that are write policies scoped to bucket `b`. -/
def writePoliciesFor (s : StorageState) (b : String) : List Policy :=
  s.policies.filter (fun p => (p.cmd == PolicyCmd.insert) && (p.bucketCond == b))

/-- Whether a bucket row with the given id exists. -/
def bucketExists (s : StorageState) (n : String) : Bool :=
  s.buckets.any (fun b => b.id == n)

/-! ## Client-side archive builder (src/frontend/src/lib/storage-utils.ts)

The routine is embedded over an environment record fixing the outcomes of
its three external effects: the `create_project_bucket` RPC, the zip
serialization (`generateAsync`), and the storage upload. Alongside its
return value it yields the list of observable side effects it performed,
so that "performs no upload" claims can be stated. -/

/-- One caller-supplied file: `{ name, content }`. -/
structure FileEntry where
  name : String
  content : String
deriving Repr, DecidableEq

/-- A serialized archive, abstracted as its list of (path, content)
entries in insertion order. -/
def ZipEntries : Type := List (String × String)

/-- The entries of the archive built by the `files.forEach` loop:
every file is added via `zip.file(name, content)`. -/
def zipAddAll (files : List FileEntry) : ZipEntries :=
  files.map (fun f => (f.name, f.content))

/-- The options object passed to `upload`. -/
structure UploadOpts where
  contentType : String
  upsert : Bool
deriving Repr, DecidableEq

/-- One call to `supabase.storage.from(bucket).upload(path, blob, opts)`. -/
structure UploadCall where
  bucket : String
  path : String
  blob : List (String × String)
  opts : UploadOpts
deriving Repr, DecidableEq

/-- An observable side effect of the archive builder. -/
inductive Event where
  | zipGenerated (entries : List (String × String))
  | uploaded (call : UploadCall)
deriving Repr, DecidableEq

/-- Whether an event is an upload. -/
def Event.isUpload : Event → Bool
  | Event.uploaded _ => true
  | _ => false

/-- The outcomes of the external calls the builder makes, fixed up front:
the RPC result (a bucket name, or an error), whether zip serialization
succeeds, and the upload result. `supabaseUrl` is the base URL the
storage client derives public URLs from. -/
structure Env where
  rpcCreateProjectBucket : Except String String
  zipGenerate : Except String Unit
  uploadResult : Except String Unit
  supabaseUrl : String

/-- `getPublicUrl` of the storage client: a pure derivation
`<base>/storage/v1/object/public/<bucket>/<path>`, no network call. -/
def getPublicUrl (base bucket path : String) : String :=
  base ++ "/storage/v1/object/public/" ++ bucket ++ "/" ++ path

/-- The `createAndUploadProjectZip(projectId, files)` routine. The whole
body sits in a `try`/`catch` whose handler returns `null`, so every
failure collapses to `none`; the second component lists the side effects
performed. An RPC error is thrown and caught before any zip work; a zip
serialization failure is thrown by `generateAsync` and caught before any
upload; an upload error logs and returns `null`. -/
def createAndUploadProjectZip (env : Env) (projectId : String)
    (files : List FileEntry) : Option String × List Event :=
  match env.rpcCreateProjectBucket with
  | Except.error _ => (none, [])
  | Except.ok bucket_name =>
    match env.zipGenerate with
    | Except.error _ => (none, [])
    | Except.ok _ =>
      let zipBlob := zipAddAll files
      let fileName := "project-" ++ projectId ++ ".zip"
      let call : UploadCall :=
        ⟨bucket_name, fileName, zipBlob, ⟨"application/zip", true⟩⟩
      match env.uploadResult with
      | Except.error _ =>
          (none, [Event.zipGenerated zipBlob, Event.uploaded call])
      | Except.ok _ =>
          (some (getPublicUrl env.supabaseUrl bucket_name fileName),
           [Event.zipGenerated zipBlob, Event.uploaded call])

/-- The `getProjectDownloadUrl(projectId)` routine: derives the public
URL of `project-<projectId>.zip` against the fixed bucket name
`'project-files'` and returns it unconditionally. -/
def getProjectDownloadUrl (env : Env) (projectId : String) : Option String :=
  let fileName := "project-" ++ projectId ++ ".zip"
  some (getPublicUrl env.supabaseUrl "project-files" fileName)

/-! ## Basic facts about the digest and hex encoding -/

/-- Whether a character is a lower-case hex digit. -/
def isHexDigitChar (c : Char) : Bool := "0123456789abcdef".toList.contains c

theorem digestBytes_length (h : Hash8) : (digestBytes h).length = 32 := by
  simp [digestBytes, wordBytes]

theorem sha256_length (msg : List Nat) : (sha256 msg).length = 32 :=
  digestBytes_length _

theorem hexEncode_length (bs : List Nat) : (hexEncode bs).length = 2 * bs.length := by
  induction bs with
  | nil => rfl
  | cons b t ih =>
      show (hexByte b ++ (t.map hexByte).flatten).length = 2 * (t.length + 1)
      rw [List.length_append]
      have ih2 : ((t.map hexByte).flatten).length = 2 * t.length := ih
      rw [ih2]
      simp [hexByte]
      ring

theorem hexChar_isHexDigit : ∀ n < 16, isHexDigitChar (hexChar n) = true := by decide

theorem hexEncode_all_hex (bs : List Nat) :
    (hexEncode bs).data.all isHexDigitChar = true := by
  induction bs with
  | nil => rfl
  | cons b t ih =>
      show (hexByte b ++ (t.map hexByte).flatten).all isHexDigitChar = true
      have ih2 : ((t.map hexByte).flatten).all isHexDigitChar = true := ih
      rw [List.all_append, ih2, Bool.and_true]
      simp only [hexByte, List.all_cons, List.all_nil, Bool.and_true]
      rw [hexChar_isHexDigit _ (Nat.mod_lt _ (by norm_num)),
          hexChar_isHexDigit _ (Nat.mod_lt _ (by norm_num))]
      rfl

theorem sha256hex_length (msg : List Nat) : (sha256hex msg).length = 64 := by
  show (hexEncode (sha256 msg)).length = 64
  rw [hexEncode_length, sha256_length]

theorem sha256hex_all_hex (msg : List Nat) :
    (sha256hex msg).data.all isHexDigitChar = true :=
  hexEncode_all_hex _

/-! ## The format/%I defect: every call raises a syntax error

The derived bucket name always begins `project-` and so always contains
hyphens; `quote_ident` therefore always double-quotes it, the policy-name
literal of the first format-built statement (the download-policy drop)
lexes to a premature end, the statement fails to parse, and the whole
call aborts with a syntax error before any policy work. -/

theorem newBucketName_data (pid : String) (rnd : List Nat) :
    (newBucketName pid rnd).data =
      'p' :: 'r' :: 'o' :: 'j' :: 'e' :: 'c' :: 't' :: '-' ::
        (pid.data ++ ('-' :: (sha256hex rnd).data)) := by
  show ((("project-" ++ pid) ++ "-") ++ sha256hex rnd).data = _
  rw [String.data_append, String.data_append, String.data_append]
  rw [show ("project-" : String).data =
        ['p', 'r', 'o', 'j', 'e', 'c', 't', '-'] from rfl,
      show ("-" : String).data = ['-'] from rfl]
  simp [List.append_assoc]

theorem needsQuoting_newBucketName (pid : String) (rnd : List Nat) :
    needsQuoting (newBucketName pid rnd) = true := by
  unfold needsQuoting
  rw [newBucketName_data]
  have h : isIdentCont '-' = false := by decide
  simp [List.all_cons, h]

theorem escapeQuotesList_cons_ne (c : Char) (t : List Char)
    (hc : c ≠ '"') :
    escapeQuotesList (c :: t) = c :: escapeQuotesList t := by
  simp [escapeQuotesList, hc]

theorem escapeQuotes_newBucketName_head (pid : String) (rnd : List Nat) :
    ∃ rest, (escapeQuotes (newBucketName pid rnd)).data = 'p' :: rest := by
  refine ⟨escapeQuotesList ('r' :: 'o' :: 'j' :: 'e' :: 'c' :: 't' :: '-' ::
    (pid.data ++ ('-' :: (sha256hex rnd).data))), ?_⟩
  show escapeQuotesList (newBucketName pid rnd).data = _
  rw [newBucketName_data, escapeQuotesList_cons_ne _ _ (by decide)]

theorem lexQuotedBody_cons_ne (c : Char) (t : List Char)
    (hc : c ≠ '"') :
    lexQuotedBody (c :: t) =
      (lexQuotedBody t).map (fun br => (c :: br.1, br.2)) := by
  cases t with
  | nil => simp [lexQuotedBody, hc]
  | cons d t2 => simp [lexQuotedBody, hc]

theorem lexQuotedBody_quote_cons_ne (c : Char) (t : List Char)
    (hc : c ≠ '"') :
    lexQuotedBody ('"' :: c :: t) = some ([], c :: t) := by
  simp [lexQuotedBody, hc]

theorem lexQuotedBody_append_no_quote (t r : List Char)
    (ht : ∀ c ∈ t, c ≠ '"') :
    lexQuotedBody (t ++ r) =
      (lexQuotedBody r).map (fun br => (t ++ br.1, br.2)) := by
  induction t with
  | nil =>
      simp only [List.nil_append]
      cases lexQuotedBody r with
      | none => rfl
      | some br => rfl
  | cons c t ih =>
      have hc := ht c (List.mem_cons_self c t)
      have ht2 : ∀ x ∈ t, x ≠ '"' :=
        fun x hx => ht x (List.mem_cons_of_mem c hx)
      rw [List.cons_append, lexQuotedBody_cons_ne c _ hc, ih ht2]
      cases lexQuotedBody r with
      | none => rfl
      | some br => rfl

theorem quoteIdent_data_of_quoted (n : String)
    (hq : needsQuoting n = true) :
    (quoteIdent n).data = '"' :: ((escapeQuotes n).data ++ ['"']) := by
  unfold quoteIdent
  rw [hq]
  show (("\"" ++ escapeQuotes n) ++ "\"").data = _
  rw [String.data_append, String.data_append]
  rw [show ("\"" : String).data = ['"'] from rfl]
  simp

theorem regionIsSingleIdent_quoted_false (t n : String)
    (ht : ∀ c ∈ t.data, c ≠ '"')
    (hq : needsQuoting n = true)
    (c0 : Char) (rest : List Char)
    (hdata : (escapeQuotes n).data = c0 :: rest)
    (hc0 : c0 ≠ '"') :
    regionIsSingleIdent (t ++ quoteIdent n) = false := by
  unfold regionIsSingleIdent
  rw [String.data_append, quoteIdent_data_of_quoted n hq, hdata]
  have hshape :
      (t.data ++ '"' :: ((c0 :: rest) ++ ['"'])) ++ ['"'] =
        t.data ++ ('"' :: c0 :: (rest ++ ['"'] ++ ['"'])) := by
    simp [List.append_assoc]
  rw [hshape, lexQuotedBody_append_no_quote t.data _ ht,
      lexQuotedBody_quote_cons_ne c0 _ hc0]
  rfl

theorem executeDropPolicyIfExists_error_of_not_ident (s : StorageState)
    (templateText n : String)
    (h : regionIsSingleIdent (policyNameRegion templateText n) = false) :
    executeDropPolicyIfExists s templateText n =
      Except.error
        ("syntax error at or near " ++ policyNameRegion templateText n) := by
  simp only [executeDropPolicyIfExists]
  rw [h]
  simp

theorem executeDrop_download_newBucketName_error (s : StorageState)
    (pid : String) (rnd : List Nat) :
    ∃ e, executeDropPolicyIfExists s downloadTemplate
      (newBucketName pid rnd) = Except.error e := by
  obtain ⟨rest, hdata⟩ := escapeQuotes_newBucketName_head pid rnd
  have hfalse : regionIsSingleIdent
      (policyNameRegion downloadTemplate (newBucketName pid rnd)) = false :=
    regionIsSingleIdent_quoted_false downloadTemplate
      (newBucketName pid rnd) (by decide) (needsQuoting_newBucketName pid rnd)
      'p' rest hdata (by decide)
  exact ⟨_, executeDropPolicyIfExists_error_of_not_ident s downloadTemplate
    (newBucketName pid rnd) hfalse⟩

/-- Every call to the procedure raises: the first `execute` — the
format-built drop of the download policy — is a syntax error for every
derived (hyphenated, hence quote_ident-quoted) bucket name. -/
theorem create_project_bucket_raises (project_id : String) (rnd : List Nat)
    (s : StorageState) :
    ∃ e, create_project_bucket project_id rnd s = Except.error e := by
  obtain ⟨e, he⟩ := executeDrop_download_newBucketName_error
    (insertBucket s (newBucketName project_id rnd)) project_id rnd
  refine ⟨e, ?_⟩
  simp only [create_project_bucket]
  rw [he]

/-! ## Claim theorems for the provisioner -/

/-- C1 (code bug): the spec and the procedure's own comment promise that
each successful call returns a fresh container name
`project-<project_id>-<64 hex chars>`, and the derivation statement does
compute a value of exactly that shape; but the policy DDL that follows is
built with `format`'s `%I` inside double-quoted name literals, the
always-hyphenated name is double-quoted again, the first `execute` is a
syntax error, and so every call errors and no call ever returns a name. -/
theorem create_project_bucket_never_returns_name
    (project_id : String) (rnd : List Nat) (s : StorageState) :
    (∃ e, create_project_bucket project_id rnd s = Except.error e) ∧
    (∀ n s', create_project_bucket project_id rnd s ≠ Except.ok (n, s')) ∧
    (∃ d, newBucketName project_id rnd =
        "project-" ++ project_id ++ "-" ++ d ∧
      d.length = 64 ∧ d.data.all isHexDigitChar = true) := by
  obtain ⟨e, he⟩ := create_project_bucket_raises project_id rnd s
  refine ⟨⟨e, he⟩, ?_, sha256hex rnd, rfl, sha256hex_length rnd,
    sha256hex_all_hex rnd⟩
  intro n s' hok
  rw [he] at hok
  exact absurd hok (by simp)

theorem quoteIdent_ne_newBucketName (pid : String) (rnd : List Nat) :
    quoteIdent (newBucketName pid rnd) ≠ newBucketName pid rnd := by
  intro h
  have hd := congrArg String.data h
  rw [quoteIdent_data_of_quoted _ (needsQuoting_newBucketName pid rnd),
      newBucketName_data] at hd
  rw [List.cons.injEq] at hd
  exact absurd hd.1 (by decide)

/-- C2 (code bug): the call always aborts at the first format-built
statement, before either `create policy` runs, so no download or upload
policy is ever installed on the returned container; moreover the
conditions those statements would install compare `bucket_id` with the
`'%I'`-built literal — `quote_ident` of the name, double quotes included
— which never equals the container's actual id, so even the intended
policies would grant nothing on it. -/
theorem create_project_bucket_policies_never_installed
    (project_id : String) (rnd : List Nat) (s : StorageState) :
    (∃ e, create_project_bucket project_id rnd s = Except.error e) ∧
    quoteIdent (newBucketName project_id rnd) ≠
      newBucketName project_id rnd ∧
    (∀ (pname : String) (cmd : PolicyCmd) (role : PolicyRole) (c : Caller)
        (a : Action) (objName : String),
      policyAllows
        ⟨pname, cmd, role, quoteIdent (newBucketName project_id rnd)⟩
        c a ⟨newBucketName project_id rnd, objName⟩ = false) := by
  refine ⟨create_project_bucket_raises project_id rnd s,
    quoteIdent_ne_newBucketName project_id rnd, ?_⟩
  intro pname cmd role c a objName
  have hne : (newBucketName project_id rnd ==
      quoteIdent (newBucketName project_id rnd)) = false := by
    rw [beq_eq_false_iff_ne]
    exact fun h => quoteIdent_ne_newBucketName project_id rnd h.symm
  simp [policyAllows, hne]

/-- C3 (code bug): the claim requires the forced-same-name second call
not to raise; in fact every call raises the syntax error of the first
format-built drop statement, so the second call — same random draw, from
whatever state the first attempt left — raises exactly as the first
does, and the error-free idempotent re-run the spec describes never
happens. -/
theorem create_project_bucket_collision_retry_raises
    (project_id : String) (rnd : List Nat) (s s1 : StorageState) :
    (∃ e, create_project_bucket project_id rnd s = Except.error e) ∧
    (∃ e, create_project_bucket project_id rnd s1 = Except.error e) :=
  ⟨create_project_bucket_raises project_id rnd s,
   create_project_bucket_raises project_id rnd s1⟩

/-- C4: the call is all-or-nothing: every run either returns a container
name with the bucket row present and read and write policies scoped to
it in the resulting state, or an error — and the model's error
constructor carries no state, matching the rollback of an aborted call,
so no partial-success state is ever exposed. (With the format/%I defect
the error branch is the one every run takes.) -/
theorem create_project_bucket_all_or_nothing
    (project_id : String) (rnd : List Nat) (s : StorageState) :
    (∃ n s', create_project_bucket project_id rnd s = Except.ok (n, s') ∧
      bucketExists s' n = true ∧
      readPoliciesFor s' n ≠ [] ∧ writePoliciesFor s' n ≠ []) ∨
    (∃ e, create_project_bucket project_id rnd s = Except.error e) :=
  Or.inr (create_project_bucket_raises project_id rnd s)

/-- An environment whose provisioning RPC fails (simulated permission
denial) while the later stages would succeed. -/
def envRpcDenied : Env :=
  ⟨Except.error "permission denied for function create_project_bucket",
   Except.ok (), Except.ok (), "http://localhost:54321"⟩

/-- An environment in which every external call succeeds, the RPC
returning a concrete per-project bucket name. -/
def envAllOk : Env :=
  ⟨Except.ok "project-42-abc", Except.ok (), Except.ok (),
   "http://localhost:54321"⟩

/-- C5: when the provisioning RPC fails, the routine returns null and
performs no archive packaging and no storage upload: the thrown error is
caught before any zip work, leaving an empty effect trace. -/
theorem createAndUploadProjectZip_rpc_error (env : Env) (projectId : String)
    (files : List FileEntry) (e : String)
    (h : env.rpcCreateProjectBucket = Except.error e) :
    createAndUploadProjectZip env projectId files = (none, []) := by
  unfold createAndUploadProjectZip
  rw [h]

/-- Witness for C5: a concrete denied-provisioning environment with one
file; the run returns null with no effects. -/
theorem createAndUploadProjectZip_rpc_error_witness :
    createAndUploadProjectZip envRpcDenied "42"
      [⟨"index.html", "<h1>hi</h1>"⟩] = (none, []) :=
  createAndUploadProjectZip_rpc_error envRpcDenied "42"
    [⟨"index.html", "<h1>hi</h1>"⟩]
    "permission denied for function create_project_bucket" rfl

/-- C6: on a fully successful run, the routine serializes the archive of
the given files, uploads it to the bucket named by the RPC result under
the fixed object name `project-<projectId>.zip` with content type
`application/zip` and upsert, and returns the public URL of that object,
which ends in `/project-<projectId>.zip`. -/
theorem createAndUploadProjectZip_success (env : Env) (projectId bn : String)
    (files : List FileEntry)
    (hrpc : env.rpcCreateProjectBucket = Except.ok bn)
    (hzip : env.zipGenerate = Except.ok ())
    (hup : env.uploadResult = Except.ok ()) :
    createAndUploadProjectZip env projectId files =
      (some (getPublicUrl env.supabaseUrl bn ("project-" ++ projectId ++ ".zip")),
       [Event.zipGenerated (zipAddAll files),
        Event.uploaded ⟨bn, "project-" ++ projectId ++ ".zip", zipAddAll files,
          ⟨"application/zip", true⟩⟩]) ∧
    getPublicUrl env.supabaseUrl bn ("project-" ++ projectId ++ ".zip") =
      (env.supabaseUrl ++ "/storage/v1/object/public/" ++ bn) ++
        ("/" ++ ("project-" ++ projectId ++ ".zip")) := by
  constructor
  · unfold createAndUploadProjectZip
    rw [hrpc, hzip, hup]
  · unfold getPublicUrl
    rw [String.append_assoc]

/-- Witness for C6: a concrete all-success environment and the single
file of the spec's worked example. -/
theorem createAndUploadProjectZip_success_witness :
    createAndUploadProjectZip envAllOk "42" [⟨"index.html", "<h1>hi</h1>"⟩] =
      (some (getPublicUrl "http://localhost:54321" "project-42-abc"
        "project-42.zip"),
       [Event.zipGenerated [("index.html", "<h1>hi</h1>")],
        Event.uploaded ⟨"project-42-abc", "project-42.zip",
          [("index.html", "<h1>hi</h1>")], ⟨"application/zip", true⟩⟩]) ∧
    getPublicUrl "http://localhost:54321" "project-42-abc" "project-42.zip" =
      ("http://localhost:54321" ++ "/storage/v1/object/public/" ++
        "project-42-abc") ++ ("/" ++ "project-42.zip") :=
  createAndUploadProjectZip_success envAllOk "42" "project-42-abc"
    [⟨"index.html", "<h1>hi</h1>"⟩] rfl rfl rfl

/-- C7: the routine never throws to its caller — it is a total function
whose every failure mode collapses to a null result: it returns null
exactly when the provisioning RPC, the archive serialization or the
upload failed, and its effect trace contains at most one upload (no
retry on any failure). On an upload error the trace shows the one failed
attempt and the result is null. -/
theorem createAndUploadProjectZip_total_no_retry (env : Env)
    (projectId : String) (files : List FileEntry) :
    ((createAndUploadProjectZip env projectId files).1 = none ↔
      (∃ e, env.rpcCreateProjectBucket = Except.error e) ∨
      (∃ e, env.zipGenerate = Except.error e) ∨
      (∃ e, env.uploadResult = Except.error e)) ∧
    ((createAndUploadProjectZip env projectId files).2.filter
      Event.isUpload).length ≤ 1 := by
  unfold createAndUploadProjectZip
  cases hr : env.rpcCreateProjectBucket <;>
    cases hz : env.zipGenerate <;>
      cases hu : env.uploadResult <;>
        simp [Event.isUpload]

/-- C8: with an empty file list and the external calls succeeding, the
routine still serializes a valid empty archive (no entries), uploads it,
and returns a non-null URL. -/
theorem createAndUploadProjectZip_empty_files (env : Env)
    (projectId bn : String)
    (hrpc : env.rpcCreateProjectBucket = Except.ok bn)
    (hzip : env.zipGenerate = Except.ok ())
    (hup : env.uploadResult = Except.ok ()) :
    createAndUploadProjectZip env projectId [] =
      (some (getPublicUrl env.supabaseUrl bn
        ("project-" ++ projectId ++ ".zip")),
       [Event.zipGenerated [],
        Event.uploaded ⟨bn, "project-" ++ projectId ++ ".zip", [],
          ⟨"application/zip", true⟩⟩]) := by
  unfold createAndUploadProjectZip
  rw [hrpc, hzip, hup]
  rfl

/-- Witness for C8: the all-success environment with an empty file list. -/
theorem createAndUploadProjectZip_empty_files_witness :
    createAndUploadProjectZip envAllOk "7" [] =
      (some (getPublicUrl "http://localhost:54321" "project-42-abc"
        "project-7.zip"),
       [Event.zipGenerated [],
        Event.uploaded ⟨"project-42-abc", "project-7.zip", [],
          ⟨"application/zip", true⟩⟩]) :=
  createAndUploadProjectZip_empty_files envAllOk "7" "project-42-abc"
    rfl rfl rfl

/-- C9: `getProjectDownloadUrl` derives the public URL of
`project-<projectId>.zip` against the fixed container name
`project-files`, which is never the per-project container name that
`create_project_bucket` derives and `createAndUploadProjectZip` uploads
to — a generated name carries a 64-character digest suffix, so it cannot
equal `project-files`. -/
theorem getProjectDownloadUrl_fixed_bucket (env : Env) (projectId : String)
    (rnd : List Nat) :
    getProjectDownloadUrl env projectId =
      some (getPublicUrl env.supabaseUrl "project-files"
        ("project-" ++ projectId ++ ".zip")) ∧
    newBucketName projectId rnd ≠ "project-files" := by
  refine ⟨rfl, ?_⟩
  intro h
  have hlen := congrArg String.length h
  rw [newBucketName, String.length_append, String.length_append,
    sha256hex_length] at hlen
  rw [String.length_append] at hlen
  have h8 : ("project-" : String).length = 8 := by decide
  have h1 : ("-" : String).length = 1 := by decide
  have h13 : ("project-files" : String).length = 13 := by decide
  rw [h8, h1, h13] at hlen
  omega

/-- C10: `getProjectDownloadUrl` never returns null: despite its declared
nullable return type, it unconditionally returns the derived URL string —
a pure local computation with no failing branch — so the same projectId
always yields the same non-null URL. -/
theorem getProjectDownloadUrl_never_none (env : Env) (projectId : String) :
    getProjectDownloadUrl env projectId =
      some (getPublicUrl env.supabaseUrl "project-files"
        ("project-" ++ projectId ++ ".zip")) ∧
    getProjectDownloadUrl env projectId ≠ none :=
  ⟨rfl, by simp [getProjectDownloadUrl]⟩
